import Mathlib

/-!
Verification of the CppServer session I/O engine against its source.

The development is a shallow embedding of the two session implementations
present in the repository:

* `src/include/server/asio/ssl_session.inl` — the TLS session
  (`SSLSession`): connect/handshake, double-buffered send path
  (`Send`/`TrySend`), adaptive receive path (`TryReceive`), graceful
  disconnect (`Disconnect`), and the error classification (`SendError`).
* `src/source/server/asio/udp_client.cpp` — the UDP endpoint
  (`UDPClient`): connect, synchronous `Send`, adaptive receive path,
  disconnect, busy-wait `Reconnect`, and its error classification.

Modelling conventions:

* Every C++ member function becomes a pure Lean function from the session
  state to a new state together with a `List Effect` trace.  The trace
  records, in program order, the user callbacks invoked (`onConnected`,
  `onReceived`, …), the asynchronous operations issued (`asyncReadSome`,
  `asyncWrite`, …), socket operations, and flag mutations whose order the
  source fixes.
* Asynchronous completion handlers (the lambdas passed to
  `async_handshake`, `async_read_some`, `async_write`, `async_shutdown`)
  become separate functions taking the completion's `(error, size)`
  arguments; an absent error (`!ec`) is `Option.none`.
* `std::error_code` is a `(category, value)` pair; the specific numeric
  values of the named asio error constants are taken from the usual POSIX /
  asio values, and only their distinctness and categories matter.
  `ec.message()` is determined by the pair, so the `onError` effect carries
  the pair.
* Byte buffers are `List Nat` (byte values); the receive buffer appears
  only through its size, which is the only aspect the source ever reads
  apart from passing the data pointer to a callback, so it is modelled as
  a `Nat` field holding its size.
-/

namespace CppServer

/-- `CHUNK` — the initial receive-buffer capacity hint.  Modelled from the
spec: the constant's defining header is not part of `src/`; the spec fixes
it as "implementation-chosen; commonly 8 KiB".  No claim depends on its
numeric value, only on the symbolic `CHUNK + 1` initial size. -/
def CHUNK : Nat := 8192

/-- The error categories that can tag a `std::error_code` at the completion
sites of this repository: the system category (POSIX errno values), the
asio miscellaneous category (`asio::error::eof`), the OpenSSL category
(`asio::error::get_ssl_category()`, packed OpenSSL errors), and the SSL
stream category (`asio::ssl::error::stream_truncated`). -/
inductive ErrorCategory where
  | system
  | misc
  | ssl
  | sslStream
  deriving DecidableEq, Repr

/-- A `std::error_code`: a category together with a numeric value.  Two
codes compare equal exactly when both components agree, matching
`std::error_code::operator==`. -/
structure ErrorCode where
  category : ErrorCategory
  value : Nat
  deriving DecidableEq, Repr

/-- `asio::error::connection_aborted` (ECONNABORTED). -/
def connection_aborted : ErrorCode := ⟨ErrorCategory.system, 103⟩

/-- `asio::error::connection_refused` (ECONNREFUSED). -/
def connection_refused : ErrorCode := ⟨ErrorCategory.system, 111⟩

/-- `asio::error::connection_reset` (ECONNRESET). -/
def connection_reset : ErrorCode := ⟨ErrorCategory.system, 104⟩

/-- `asio::error::eof` (asio miscellaneous category). -/
def eof : ErrorCode := ⟨ErrorCategory.misc, 2⟩

/-- `asio::error::operation_aborted` (ECANCELED). -/
def operation_aborted : ErrorCode := ⟨ErrorCategory.system, 125⟩

/-- `asio::ssl::error::stream_truncated` (SSL stream category). -/
def stream_truncated : ErrorCode := ⟨ErrorCategory.sslStream, 1⟩

/-- OpenSSL `ERR_GET_REASON`: the reason code is the low 12 bits of a
packed OpenSSL error value. -/
def ERR_GET_REASON (v : Nat) : Nat := v % 4096

/-- OpenSSL reason code `SSL_R_DECRYPTION_FAILED_OR_BAD_RECORD_MAC`. -/
def SSL_R_DECRYPTION_FAILED_OR_BAD_RECORD_MAC : Nat := 281

/-- OpenSSL reason code `SSL_R_PROTOCOL_IS_SHUTDOWN`. -/
def SSL_R_PROTOCOL_IS_SHUTDOWN : Nat := 207

/-- OpenSSL reason code `SSL_R_WRONG_VERSION_NUMBER`. -/
def SSL_R_WRONG_VERSION_NUMBER : Nat := 267

/-- Observable steps of a session function, in program order: user
callbacks, asynchronous operations issued, socket operations, serializer
submissions, and the flag mutations whose order the source fixes. -/
inductive Effect where
  | onConnected
  | onHandshaked
  | onDisconnected
  | onReceived (size : Nat)
  | onReceivedFrom (size : Nat)
  | onSent (sent : Nat) (pending : Nat)
  | onSentTo (sent : Nat)
  | onEmpty
  | onError (category : ErrorCategory) (value : Nat)
  | dispatchTrySend
  | dispatchDisconnect (dispatch : Bool)
  | asyncHandshake
  | asyncShutdown
  | asyncReadSome (len : Nat)
  | asyncWrite (bytes : List Nat)
  | sendToCall (size : Nat)
  | setNoDelay
  | setReuseAddress
  | setReusePort
  | socketOpen
  | socketBind (multicast : Bool)
  | socketClose
  | clearBuffers
  | resetStatistics
  | setHandshakedFlag (b : Bool)
  | setConnectedFlag (b : Bool)
  | unregisterSession
  | postConnectHandler
  | yieldThread
  deriving DecidableEq, Repr

/-- The state of an `SSLSession` (`ssl_session.inl`, constructor at lines
12–27): lifecycle flags, statistics (both the session counters and the
server aggregates the session mirrors into), the receive flag and buffer
size, and the double send buffer with its flush offset. -/
structure SSLSession where
  connected : Bool
  handshaked : Bool
  bytes_sent : Nat
  bytes_received : Nat
  server_bytes_sent : Nat
  server_bytes_received : Nat
  reciving : Bool
  recive_buffer : Nat
  sending : Bool
  send_buffer_main : List Nat
  send_buffer_flush : List Nat
  send_buffer_flush_offset : Nat
  deriving DecidableEq, Repr

/-- The freshly constructed `SSLSession`: all flags false, counters zero,
receive buffer of `CHUNK + 1` bytes, empty send buffers, zero offset. -/
def SSLSession.init : SSLSession where
  connected := false
  handshaked := false
  bytes_sent := 0
  bytes_received := 0
  server_bytes_sent := 0
  server_bytes_received := 0
  reciving := false
  recive_buffer := CHUNK + 1
  sending := false
  send_buffer_main := []
  send_buffer_flush := []
  send_buffer_flush_offset := 0

/-- `SSLSession::SendError` (lines 317–340): classify an error code and
return the callback trace — empty when the code is suppressed, otherwise a
single `onError`.  The suppression tests mirror the source: the five asio
disconnect codes, `stream_truncated`, and SSL-category codes whose
`ERR_GET_REASON` is one of the three listed OpenSSL reasons. -/
def SSLSession.SendError (ec : ErrorCode) : List Effect :=
  if ec = connection_aborted ∨ ec = connection_refused ∨ ec = connection_reset ∨
      ec = eof ∨ ec = operation_aborted then []
  else if ec = stream_truncated then []
  else if ec.category = ErrorCategory.ssl ∧
      (ERR_GET_REASON ec.value = SSL_R_DECRYPTION_FAILED_OR_BAD_RECORD_MAC ∨
       ERR_GET_REASON ec.value = SSL_R_PROTOCOL_IS_SHUTDOWN ∨
       ERR_GET_REASON ec.value = SSL_R_WRONG_VERSION_NUMBER) then []
  else [Effect.onError ec.category ec.value]

/-- `SSLSession::Disconnect(bool dispatch)` (lines 83–141): when not
connected return `false`; otherwise submit the disconnect handler to the
serializer (dispatch or post) and return `true`.  The handler itself is
`SSLSession.disconnectHandler`. -/
def SSLSession.Disconnect (s : SSLSession) (dispatch : Bool) :
    SSLSession × List Effect × Bool :=
  if s.connected = false then (s, [], false)
  else (s, [Effect.dispatchDisconnect dispatch], true)

/-- The disconnect handler lambda inside `SSLSession::Disconnect` (lines
91–124): when still connected, issue the asynchronous SSL shutdown whose
completion is `SSLSession.shutdownCompletion`. -/
def SSLSession.disconnectHandler (s : SSLSession) : SSLSession × List Effect :=
  if s.connected = false then (s, [])
  else (s, [Effect.asyncShutdown])

/-- The shutdown completion lambda inside `SSLSession::Disconnect` (lines
97–119): when still connected, close the socket, clear the send buffers
(`ClearBuffers`, lines 304–315 — the receive buffer is untouched), reset
`handshaked` then `connected`, call `onDisconnected`, and unregister the
session, in that order.  The source's handler ignores its error-code
argument. -/
def SSLSession.shutdownCompletion (s : SSLSession) : SSLSession × List Effect :=
  if s.connected = false then (s, [])
  else
    ({ s with
        send_buffer_main := []
        send_buffer_flush := []
        send_buffer_flush_offset := 0
        handshaked := false
        connected := false },
      [Effect.socketClose, Effect.clearBuffers, Effect.setHandshakedFlag false,
       Effect.setConnectedFlag false, Effect.onDisconnected, Effect.unregisterSession])

/-- `SSLSession::Send(const void* buffer, size_t size)` (lines 143–177).
The pointer/size pair is modelled as `Option (List Nat)`: `none` is a null
pointer and the list holds the `size` bytes, so `size == 0` is the empty
list.  A null or empty buffer, or a session that is not handshaked,
returns 0 with no state change; otherwise the bytes are appended to the
main send buffer under the send lock, `TrySend` is dispatched on the
serializer, and the size of the main buffer right after the append is
returned. -/
def SSLSession.Send (s : SSLSession) (buffer : Option (List Nat)) :
    SSLSession × List Effect × Nat :=
  match buffer with
  | none => (s, [], 0)
  | some bytes =>
    if bytes.length = 0 then (s, [], 0)
    else if s.handshaked = false then (s, [], 0)
    else
      let main := s.send_buffer_main ++ bytes
      ({ s with send_buffer_main := main }, [Effect.dispatchTrySend], main.length)

/-- `SSLSession::TrySend` (lines 228–302, entry part): return when a write
is outstanding or the session is not handshaked; swap the flush and main
buffers under the send lock when the flush buffer is empty, resetting the
offset; if the flush buffer is still empty call `onEmpty`; otherwise set
`sending` and issue an asynchronous write of the flush buffer from the
flush offset.  The write completion is `SSLSession.writeCompletion`. -/
def SSLSession.TrySend (s : SSLSession) : SSLSession × List Effect :=
  if s.sending then (s, [])
  else if s.handshaked = false then (s, [])
  else
    let s1 :=
      if s.send_buffer_flush.isEmpty then
        { s with
            send_buffer_flush := s.send_buffer_main
            send_buffer_main := []
            send_buffer_flush_offset := 0 }
      else s
    if s1.send_buffer_flush.isEmpty then (s1, [Effect.onEmpty])
    else
      ({ s1 with sending := true },
        [Effect.asyncWrite (s1.send_buffer_flush.drop s1.send_buffer_flush_offset)])

/-- `SSLSession::TryReceive` (lines 179–226, entry part): return when a
read is outstanding or the session is not handshaked; otherwise set
`reciving` and issue an asynchronous read into the receive buffer.  The
read completion is `SSLSession.receiveCompletion`. -/
def SSLSession.TryReceive (s : SSLSession) : SSLSession × List Effect :=
  if s.reciving then (s, [])
  else if s.handshaked = false then (s, [])
  else ({ s with reciving := true }, [Effect.asyncReadSome s.recive_buffer])

/-- The receive completion lambda inside `SSLSession::TryReceive` (lines
191–221): clear `reciving`; return when no longer handshaked; when `size >
0` update the session and server byte counters, double the receive buffer
when the read filled it exactly, and call `onReceived`; then with no error
call `TryReceive` again, and on error classify it via `SendError` and
initiate `Disconnect(true)`. -/
def SSLSession.receiveCompletion (s : SSLSession) (ec : Option ErrorCode)
    (size : Nat) : SSLSession × List Effect :=
  let s0 := { s with reciving := false }
  if s0.handshaked = false then (s0, [])
  else
    let step :=
      if size > 0 then
        let s1 := { s0 with
            bytes_received := s0.bytes_received + size
            server_bytes_received := s0.server_bytes_received + size }
        let s2 :=
          if s1.recive_buffer = size then { s1 with recive_buffer := 2 * size }
          else s1
        (s2, [Effect.onReceived size])
      else (s0, ([] : List Effect))
    match ec with
    | none =>
      let next := step.1.TryReceive
      (next.1, step.2 ++ next.2)
    | some e =>
      let d := step.1.Disconnect true
      (d.1, step.2 ++ SSLSession.SendError e ++ d.2.1)

/-- The write completion lambda inside `SSLSession::TrySend` (lines
258–296): clear `sending`; return when no longer handshaked; when `size >
0` update the session and server byte counters, advance the flush offset,
clear the flush buffer and offset when the offset reached the flush
length, and call `onSent(size, remaining)`; then with no error call
`TrySend` again, and on error classify it via `SendError` and initiate
`Disconnect(true)`. -/
def SSLSession.writeCompletion (s : SSLSession) (ec : Option ErrorCode)
    (size : Nat) : SSLSession × List Effect :=
  let s0 := { s with sending := false }
  if s0.handshaked = false then (s0, [])
  else
    let step :=
      if size > 0 then
        let s1 := { s0 with
            bytes_sent := s0.bytes_sent + size
            server_bytes_sent := s0.server_bytes_sent + size
            send_buffer_flush_offset := s0.send_buffer_flush_offset + size }
        let s2 :=
          if s1.send_buffer_flush_offset = s1.send_buffer_flush.length then
            { s1 with send_buffer_flush := [], send_buffer_flush_offset := 0 }
          else s1
        (s2, [Effect.onSent size (s2.send_buffer_flush.length - s2.send_buffer_flush_offset)])
      else (s0, ([] : List Effect))
    match ec with
    | none =>
      let next := step.1.TrySend
      (next.1, step.2 ++ next.2)
    | some e =>
      let d := step.1.Disconnect true
      (d.1, step.2 ++ SSLSession.SendError e ++ d.2.1)

/-- `SSLSession::Connect` (lines 29–81, synchronous part): return when
already connected or handshaked; apply the no-delay option, reset the byte
counters, set `connected`, call `onConnected`, and issue the asynchronous
TLS handshake whose completion is `SSLSession.handshakeHandler`. -/
def SSLSession.Connect (s : SSLSession) (option_no_delay : Bool) :
    SSLSession × List Effect :=
  if s.connected = true ∨ s.handshaked = true then (s, [])
  else
    ({ s with bytes_sent := 0, bytes_received := 0, connected := true },
      (if option_no_delay then [Effect.setNoDelay] else []) ++
        [Effect.onConnected, Effect.asyncHandshake])

/-- The handshake completion lambda inside `SSLSession::Connect` (lines
51–76): return when already handshaked; on success set `handshaked`, call
`onHandshaked`, call `onEmpty`, and call `TryReceive` to start the first
read; on error classify it via `SendError` and initiate
`Disconnect(true)`. -/
def SSLSession.handshakeHandler (s : SSLSession) (ec : Option ErrorCode) :
    SSLSession × List Effect :=
  if s.handshaked then (s, [])
  else
    match ec with
    | none =>
      let s1 := { s with handshaked := true }
      let next := s1.TryReceive
      (next.1, [Effect.onHandshaked, Effect.onEmpty] ++ next.2)
    | some e =>
      let d := s.Disconnect true
      (d.1, SSLSession.SendError e ++ d.2.1)

/-- The state of a `UDPClient` (`udp_client.cpp`, constructors at lines
14–56): the connected flag, the datagram and byte counters, the receive
flag and buffer size, and the socket option flags. -/
structure UDPClient where
  connected : Bool
  datagrams_sent : Nat
  datagrams_received : Nat
  bytes_sent : Nat
  bytes_received : Nat
  reciving : Bool
  recive_buffer : Nat
  option_reuse_address : Bool
  option_reuse_port : Bool
  option_multicast : Bool
  deriving DecidableEq, Repr

/-- The freshly constructed `UDPClient`: not connected, counters zero,
receive buffer of `CHUNK + 1` bytes, all options off. -/
def UDPClient.init : UDPClient where
  connected := false
  datagrams_sent := 0
  datagrams_received := 0
  bytes_sent := 0
  bytes_received := 0
  reciving := false
  recive_buffer := CHUNK + 1
  option_reuse_address := false
  option_reuse_port := false
  option_multicast := false

/-- `UDPClient::SendError` (lines 300–311): classify an error code —
empty trace when the code is one of the five asio disconnect codes,
otherwise a single `onError`. -/
def UDPClient.SendError (ec : ErrorCode) : List Effect :=
  if ec = connection_aborted ∨ ec = connection_refused ∨ ec = connection_reset ∨
      ec = eof ∨ ec = operation_aborted then []
  else [Effect.onError ec.category ec.value]

/-- `UDPClient::TryReceive` (lines 252–298, entry part): return when a
read is outstanding or the client is not connected; otherwise set
`reciving` and issue an asynchronous receive-from into the receive buffer.
The completion is `UDPClient.receiveCompletion`. -/
def UDPClient.TryReceive (c : UDPClient) : UDPClient × List Effect :=
  if c.reciving then (c, [])
  else if c.connected = false then (c, [])
  else ({ c with reciving := true }, [Effect.asyncReadSome c.recive_buffer])

/-- `UDPClient::Connect` (lines 58–107, synchronous part): return `false`
when already connected; otherwise post the connect handler
(`UDPClient.connectHandler`) to the serializer and return `true`. -/
def UDPClient.Connect (c : UDPClient) : UDPClient × List Effect × Bool :=
  if c.connected then (c, [], false)
  else (c, [Effect.postConnectHandler], true)

/-- The connect handler lambda inside `UDPClient::Connect` (lines 65–100):
when not yet connected, open the socket, apply the reuse-address /
reuse-port options, bind (to the interface endpoint when the multicast
option is set, else to an ephemeral port), reset the four statistics
counters, set `connected`, call `onConnected`, and call `TryReceive` to
start the first read. -/
def UDPClient.connectHandler (c : UDPClient) : UDPClient × List Effect :=
  if c.connected then (c, [])
  else
    let socketEffects :=
      [Effect.socketOpen] ++
        (if c.option_reuse_address then [Effect.setReuseAddress] else []) ++
        (if c.option_reuse_port then [Effect.setReusePort] else []) ++
        [Effect.socketBind c.option_multicast]
    let c1 := { c with
        datagrams_sent := 0
        datagrams_received := 0
        bytes_sent := 0
        bytes_received := 0
        connected := true }
    let next := c1.TryReceive
    (next.1,
      socketEffects ++
        [Effect.resetStatistics, Effect.setConnectedFlag true, Effect.onConnected] ++
        next.2)

/-- `UDPClient::Disconnect(bool dispatch)` (lines 109–146): return `false`
when not connected; otherwise submit the disconnect handler
(`UDPClient.disconnectHandler`) to the serializer (dispatch or post) and
return `true`. -/
def UDPClient.Disconnect (c : UDPClient) (dispatch : Bool) :
    UDPClient × List Effect × Bool :=
  if c.connected = false then (c, [], false)
  else (c, [Effect.dispatchDisconnect dispatch], true)

/-- The disconnect handler lambda inside `UDPClient::Disconnect` (lines
116–129): when still connected, close the socket, clear `connected`, and
call `onDisconnected`. -/
def UDPClient.disconnectHandler (c : UDPClient) : UDPClient × List Effect :=
  if c.connected = false then (c, [])
  else
    ({ c with connected := false },
      [Effect.socketClose, Effect.setConnectedFlag false, Effect.onDisconnected])

/-- `UDPClient::Send(endpoint, buffer, size)` (lines 217–250).  The
pointer/size pair is modelled as in `SSLSession.Send`.  The synchronous
`send_to` result is environment-chosen, so the function takes the number
of bytes it reported sent and its optional error code as arguments: a null
or empty buffer, or a disconnected client, is rejected with `false` and no
state change; otherwise `send_to` is invoked, a positive `sent` bumps the
datagram and byte counters and calls `onSent`, and an error is classified
via `SendError` followed by `Disconnect(true)` and a `false` return. -/
def UDPClient.Send (c : UDPClient) (buffer : Option (List Nat)) (sent : Nat)
    (ec : Option ErrorCode) : UDPClient × List Effect × Bool :=
  match buffer with
  | none => (c, [], false)
  | some bytes =>
    if bytes.length = 0 then (c, [], false)
    else if c.connected = false then (c, [], false)
    else
      let step :=
        if sent > 0 then
          ({ c with
              datagrams_sent := c.datagrams_sent + 1
              bytes_sent := c.bytes_sent + sent },
            [Effect.sendToCall bytes.length, Effect.onSentTo sent])
        else (c, [Effect.sendToCall bytes.length])
      match ec with
      | some e =>
        let d := step.1.Disconnect true
        (d.1, step.2 ++ UDPClient.SendError e ++ d.2.1, false)
      | none => (step.1, step.2, true)

/-- The receive completion lambda inside `UDPClient::TryReceive` (lines
263–293): clear `reciving`; return when no longer connected; when `size >
0` bump the datagram counter and the byte counter, double the receive
buffer when the read filled it exactly, and call `onReceived`; then with
no error call `TryReceive` again, and on error classify it via
`SendError` and initiate `Disconnect(true)`. -/
def UDPClient.receiveCompletion (c : UDPClient) (ec : Option ErrorCode)
    (size : Nat) : UDPClient × List Effect :=
  let c0 := { c with reciving := false }
  if c0.connected = false then (c0, [])
  else
    let step :=
      if size > 0 then
        let c1 := { c0 with
            datagrams_received := c0.datagrams_received + 1
            bytes_received := c0.bytes_received + size }
        let c2 :=
          if c1.recive_buffer = size then { c1 with recive_buffer := 2 * size }
          else c1
        (c2, [Effect.onReceivedFrom size])
      else (c0, ([] : List Effect))
    match ec with
    | none =>
      let next := step.1.TryReceive
      (next.1, step.2 ++ next.2)
    | some e =>
      let d := step.1.Disconnect true
      (d.1, step.2 ++ UDPClient.SendError e ++ d.2.1)

/-- The busy-wait loop of `UDPClient::Reconnect` (lines 153–154):
`while (IsConnected()) CppCommon::Thread::Yield();`.  `trace i` is the
value `IsConnected()` returns at the loop's `i`-th check — the flag is
flipped asynchronously by the posted disconnect handler, so the sequence
of observed values is environment-chosen.  The loop is modelled with
explicit fuel: `spinWait trace fuel i` returns the first index `j ≥ i`
with `trace j = false` when the loop exits within `fuel` further checks,
and `none` when it is still spinning after exhausting the fuel.  Each
iteration with `trace i = true` performs one thread yield and nothing
else. -/
def spinWait (trace : Nat → Bool) : Nat → Nat → Option Nat
  | fuel, i =>
    if trace i then
      match fuel with
      | 0 => none
      | Nat.succ f => spinWait trace f (i + 1)
    else some i

/-- `UDPClient::Reconnect` (lines 148–157): call `Disconnect()` and return
`false` when it fails; otherwise spin (yielding) until `IsConnected()`
reads `false`, then call `Connect()`.  Modelled from the spec for the one
piece outside `src/`: the no-argument `Disconnect()` overload lives in the
client's header, and per the spec's disconnect description it submits the
handler with post (dispatch = false); its return value does not depend on
that flag.  The result is `none` when the spin is still running after
`fuel` checks, and otherwise the effect trace (disconnect submission,
one yield per check that observed `connected = true`, then the `Connect`
effects) with the returned boolean. -/
def UDPClient.Reconnect (c : UDPClient) (trace : Nat → Bool) (fuel : Nat) :
    Option (List Effect × Bool) :=
  let d := c.Disconnect false
  if d.2.2 = false then some ([], false)
  else
    match spinWait trace fuel 0 with
    | none => none
    | some j =>
      let conn := ({ d.1 with connected := false } : UDPClient).Connect
      some (d.2.1 ++ List.replicate j Effect.yieldThread ++ conn.2.1, conn.2.2)

/-! ## Claim C1 — the `SSLSession::Send` contract -/

/-- C1: for every call `Send(buf, n)` on an SSL session: if the session is
not handshaked, or the buffer is null, or the size is zero, it returns 0
and changes no session state; otherwise it appends the `n` bytes to the
main send buffer under the send lock, dispatches `TrySend` on the
serializer, and returns the size of the main send buffer measured
immediately after the append. -/
theorem C1_ssl_send_contract (s : SSLSession) (bytes : List Nat) :
    SSLSession.Send s none = (s, [], 0) ∧
    SSLSession.Send s (some []) = (s, [], 0) ∧
    (s.handshaked = false → SSLSession.Send s (some bytes) = (s, [], 0)) ∧
    (s.handshaked = true → bytes ≠ [] →
      SSLSession.Send s (some bytes) =
        ({ s with send_buffer_main := s.send_buffer_main ++ bytes },
          [Effect.dispatchTrySend], (s.send_buffer_main ++ bytes).length)) := by
  refine ⟨rfl, by simp [SSLSession.Send], ?_, ?_⟩
  · intro h
    rcases hb : bytes with _ | ⟨x, xs⟩ <;> simp [SSLSession.Send, h]
  · intro h hne
    simp [SSLSession.Send, h, List.length_eq_zero, hne]

/-- Witness for C1: a concrete handshaked session appending two bytes. -/
theorem C1_ssl_send_contract_witness :
    SSLSession.Send { SSLSession.init with connected := true, handshaked := true }
        (some [7, 8]) =
      ({ SSLSession.init with
          connected := true
          handshaked := true
          send_buffer_main := [7, 8] },
        [Effect.dispatchTrySend], 2) := by
  have h := (C1_ssl_send_contract
    { SSLSession.init with connected := true, handshaked := true } [7, 8]).2.2.2
  simpa using h rfl (by decide)

/-! ## Claim C9 — null/zero-size sends are rejected with no state change -/

/-- C9: for every `Send` call with a null buffer or zero size, the call is
rejected synchronously — the SSL `Send` returns 0 and the UDP `Send`
returns `false` — and the session state is unchanged, with an empty effect
trace: nothing is appended, no statistics counter changes, no callback is
emitted, and no I/O is issued. -/
theorem C9_null_send_rejected (s : SSLSession) (c : UDPClient) (sent : Nat)
    (ec : Option ErrorCode) :
    SSLSession.Send s none = (s, [], 0) ∧
    SSLSession.Send s (some []) = (s, [], 0) ∧
    UDPClient.Send c none sent ec = (c, [], false) ∧
    UDPClient.Send c (some []) sent ec = (c, [], false) := by
  exact ⟨rfl, by simp [SSLSession.Send], rfl, by simp [UDPClient.Send]⟩

/-! ## Claim C4 — the error-suppression list -/

/-- The spec's suppression list, transcribed from its words for comparison
with the source's classifiers: transport connection-aborted / refused /
reset, end-of-stream, operation-aborted, TLS stream-truncated, and a
TLS-category error whose OpenSSL reason code is "decryption failed or bad
record MAC", "protocol is shutdown", or "wrong version number". -/
def specSuppressed (ec : ErrorCode) : Bool :=
  ec = connection_aborted ∨ ec = connection_refused ∨ ec = connection_reset ∨
    ec = eof ∨ ec = operation_aborted ∨ ec = stream_truncated ∨
    (ec.category = ErrorCategory.ssl ∧
      (ERR_GET_REASON ec.value = SSL_R_DECRYPTION_FAILED_OR_BAD_RECORD_MAC ∨
       ERR_GET_REASON ec.value = SSL_R_PROTOCOL_IS_SHUTDOWN ∨
       ERR_GET_REASON ec.value = SSL_R_WRONG_VERSION_NUMBER))

/-- C4: for every error code classified at a completion site, `onError` is
not invoked exactly when the code is on the spec's suppression list, and
every other code is reported through a single `onError` carrying the
code's value and category.  The TLS session's classifier satisfies the
biconditional for every code; the UDP endpoint's classifier satisfies it
for every code a UDP socket operation can deliver — those carry the
system or asio-miscellaneous category, never an OpenSSL one. -/
theorem C4_error_suppression (ec : ErrorCode) :
    (SSLSession.SendError ec = [] ↔ specSuppressed ec = true) ∧
    (specSuppressed ec = false →
      SSLSession.SendError ec = [Effect.onError ec.category ec.value]) ∧
    (ec.category = ErrorCategory.system ∨ ec.category = ErrorCategory.misc →
      (UDPClient.SendError ec = [] ↔ specSuppressed ec = true)) ∧
    (UDPClient.SendError ec ≠ [] →
      UDPClient.SendError ec = [Effect.onError ec.category ec.value]) := by
  obtain ⟨cat, v⟩ := ec
  refine ⟨?_, ?_, ?_, ?_⟩
  · simp only [SSLSession.SendError, specSuppressed]
    split_ifs with h1 h2 h3 <;>
      simp_all [connection_aborted, connection_refused, connection_reset, eof,
        operation_aborted, stream_truncated] <;> tauto
  · intro h
    simp only [specSuppressed, decide_eq_false_iff_not] at h
    push_neg at h
    simp only [SSLSession.SendError]
    split_ifs with h1 h2 h3 <;> simp_all <;> tauto
  · rintro (h | h) <;>
      simp_all [UDPClient.SendError, specSuppressed, connection_aborted,
        connection_refused, connection_reset, eof, operation_aborted,
        stream_truncated] <;>
      tauto
  · intro h
    simp only [UDPClient.SendError] at h ⊢
    split_ifs at h ⊢ <;> simp_all

/-- Witness for C4 at concrete codes: a plain system error is reported by
both classifiers, a suppressed transport code is silent in both, and a
TLS wrong-version-number handshake error is silent in the TLS session. -/
theorem C4_error_suppression_witness :
    SSLSession.SendError ⟨ErrorCategory.system, 32⟩ =
      [Effect.onError ErrorCategory.system 32] ∧
    UDPClient.SendError ⟨ErrorCategory.system, 104⟩ = [] ∧
    SSLSession.SendError ⟨ErrorCategory.ssl, 267⟩ = [] := by
  refine ⟨(C4_error_suppression ⟨ErrorCategory.system, 32⟩).2.1 (by decide), ?_, ?_⟩
  · exact ((C4_error_suppression ⟨ErrorCategory.system, 104⟩).2.2.1
      (Or.inl rfl)).mpr (by decide)
  · exact (C4_error_suppression ⟨ErrorCategory.ssl, 267⟩).1.mpr (by decide)

/-! ## Claim C5 — TLS handshake completion -/

/-- C5: on successful handshake completion (session not yet handshaked,
no outstanding read) the TLS session sets `handshaked`, emits
`onHandshaked`, then `onEmpty`, then starts the first read; on handshake
error it reports the error through the classifier and begins shutdown by
dispatching the disconnect task, and `onHandshaked` is not emitted — the
error branch leaves `handshaked` false, and no other session operation
ever emits `onHandshaked`. -/
theorem C5_handshake_completion (s : SSLSession) (e : ErrorCode)
    (ec : Option ErrorCode) (nd d : Bool) (b : Option (List Nat)) (k : Nat) :
    (s.handshaked = false → s.reciving = false →
      s.handshakeHandler none =
        ({ s with handshaked := true, reciving := true },
          [Effect.onHandshaked, Effect.onEmpty, Effect.asyncReadSome s.recive_buffer])) ∧
    (s.handshaked = false → s.connected = true →
      s.handshakeHandler (some e) =
        (s, SSLSession.SendError e ++ [Effect.dispatchDisconnect true])) ∧
    (s.handshaked = false →
      (s.handshakeHandler (some e)).1.handshaked = false ∧
      Effect.onHandshaked ∉ (s.handshakeHandler (some e)).2) ∧
    Effect.onHandshaked ∉ (s.Connect nd).2 ∧
    Effect.onHandshaked ∉ (s.Send b).2.1 ∧
    Effect.onHandshaked ∉ s.TrySend.2 ∧
    Effect.onHandshaked ∉ s.TryReceive.2 ∧
    Effect.onHandshaked ∉ (s.receiveCompletion ec k).2 ∧
    Effect.onHandshaked ∉ (s.writeCompletion ec k).2 ∧
    Effect.onHandshaked ∉ (s.Disconnect d).2.1 ∧
    Effect.onHandshaked ∉ s.disconnectHandler.2 ∧
    Effect.onHandshaked ∉ s.shutdownCompletion.2 := by
  refine ⟨?_, ?_, ?_, ?_, ?_, ?_, ?_, ?_, ?_, ?_, ?_, ?_⟩
  · intro h hr
    simp [SSLSession.handshakeHandler, SSLSession.TryReceive, h, hr]
  · intro h hc
    simp [SSLSession.handshakeHandler, SSLSession.Disconnect, h, hc]
  · intro h
    constructor
    · simp only [SSLSession.handshakeHandler, h]
      simp [SSLSession.Disconnect]
      split_ifs <;> simp [h]
    · simp only [SSLSession.handshakeHandler, h]
      simp only [SSLSession.Disconnect, SSLSession.SendError]
      split_ifs <;> simp
  · simp only [SSLSession.Connect]
    repeat' split
    all_goals simp
  · simp only [SSLSession.Send]
    repeat' split
    all_goals simp
  · simp only [SSLSession.TrySend]
    repeat' split
    all_goals simp
  · simp only [SSLSession.TryReceive]
    repeat' split
    all_goals simp
  · simp only [SSLSession.receiveCompletion, SSLSession.TryReceive,
      SSLSession.Disconnect, SSLSession.SendError]
    repeat' split
    all_goals simp
  · simp only [SSLSession.writeCompletion, SSLSession.TrySend,
      SSLSession.Disconnect, SSLSession.SendError]
    repeat' split
    all_goals simp
  · simp only [SSLSession.Disconnect]
    repeat' split
    all_goals simp
  · simp only [SSLSession.disconnectHandler]
    repeat' split
    all_goals simp
  · simp only [SSLSession.shutdownCompletion]
    repeat' split
    all_goals simp

/-- Witness for C5: the handshake completion of a freshly connected
session, on success and on an untrusted-certificate style error. -/
theorem C5_handshake_completion_witness :
    SSLSession.handshakeHandler { SSLSession.init with connected := true } none =
      ({ SSLSession.init with
          connected := true
          handshaked := true
          reciving := true },
        [Effect.onHandshaked, Effect.onEmpty, Effect.asyncReadSome (CHUNK + 1)]) ∧
    SSLSession.handshakeHandler { SSLSession.init with connected := true }
        (some ⟨ErrorCategory.ssl, 336134278⟩) =
      ({ SSLSession.init with connected := true },
        [Effect.onError ErrorCategory.ssl 336134278, Effect.dispatchDisconnect true]) := by
  have h := C5_handshake_completion { SSLSession.init with connected := true }
    ⟨ErrorCategory.ssl, 336134278⟩ none true true none 0
  refine ⟨?_, ?_⟩
  · have h1 := h.1 rfl rfl
    simpa using h1
  · have h2 := h.2.1 rfl rfl
    rw [h2]
    simp [SSLSession.SendError]
    decide

/-! ## Claim C6 — TLS graceful disconnect -/

/-- C6: `Disconnect` returns `false` when the session is not connected;
when connected it submits the disconnect task to the serializer and
returns `true` without closing anything; the task issues the asynchronous
TLS shutdown and nothing else; and only the shutdown completion closes the
socket, clears the send buffers, resets `handshaked`, resets `connected`,
emits `onDisconnected`, and deregisters the session — in that order. -/
theorem C6_ssl_disconnect (s : SSLSession) (d : Bool) :
    (s.connected = false → s.Disconnect d = (s, [], false)) ∧
    (s.connected = true →
      s.Disconnect d = (s, [Effect.dispatchDisconnect d], true)) ∧
    (s.connected = true → s.disconnectHandler = (s, [Effect.asyncShutdown])) ∧
    Effect.socketClose ∉ (s.Disconnect d).2.1 ∧
    Effect.socketClose ∉ s.disconnectHandler.2 ∧
    Effect.onDisconnected ∉ (s.Disconnect d).2.1 ∧
    Effect.onDisconnected ∉ s.disconnectHandler.2 ∧
    (s.connected = true →
      s.shutdownCompletion =
        ({ s with
            send_buffer_main := []
            send_buffer_flush := []
            send_buffer_flush_offset := 0
            handshaked := false
            connected := false },
          [Effect.socketClose, Effect.clearBuffers, Effect.setHandshakedFlag false,
           Effect.setConnectedFlag false, Effect.onDisconnected,
           Effect.unregisterSession])) := by
  refine ⟨?_, ?_, ?_, ?_, ?_, ?_, ?_, ?_⟩
  · intro h
    simp [SSLSession.Disconnect, h]
  · intro h
    simp [SSLSession.Disconnect, h]
  · intro h
    simp [SSLSession.disconnectHandler, h]
  · unfold SSLSession.Disconnect
    split_ifs <;> simp
  · unfold SSLSession.disconnectHandler
    split_ifs <;> simp
  · unfold SSLSession.Disconnect
    split_ifs <;> simp
  · unfold SSLSession.disconnectHandler
    split_ifs <;> simp
  · intro h
    simp [SSLSession.shutdownCompletion, h]

/-- Witness for C6: a connected, handshaked session with pending data in
both send buffers, taken through the three disconnect stages. -/
theorem C6_ssl_disconnect_witness :
    SSLSession.Disconnect
        { SSLSession.init with connected := true, handshaked := true } true =
      ({ SSLSession.init with connected := true, handshaked := true },
        [Effect.dispatchDisconnect true], true) ∧
    SSLSession.shutdownCompletion
        { SSLSession.init with
            connected := true
            handshaked := true
            send_buffer_main := [1]
            send_buffer_flush := [2]
            send_buffer_flush_offset := 1 } =
      (SSLSession.init,
        [Effect.socketClose, Effect.clearBuffers, Effect.setHandshakedFlag false,
         Effect.setConnectedFlag false, Effect.onDisconnected,
         Effect.unregisterSession]) := by
  constructor
  · exact (C6_ssl_disconnect
      { SSLSession.init with connected := true, handshaked := true } true).2.1 rfl
  · have h := (C6_ssl_disconnect
      { SSLSession.init with
          connected := true
          handshaked := true
          send_buffer_main := [1]
          send_buffer_flush := [2]
          send_buffer_flush_offset := 1 } true).2.2.2.2.2.2.2 rfl
    rw [h]
    rfl

/-! ## Claim C7 — the UDP connect handler -/

/-- C7 counterexample: on the freshly constructed UDP client the connect
handler's trace has no `onEmpty` at all, and the statistics reset precedes
`onConnected` — the claim asserts `onConnected` first, then the reset,
then an `onEmpty` before the first read. -/
theorem C7_counterexample :
    Effect.onEmpty ∉ UDPClient.init.connectHandler.2 ∧
    UDPClient.init.connectHandler.2 =
      [Effect.socketOpen, Effect.socketBind false, Effect.resetStatistics,
       Effect.setConnectedFlag true, Effect.onConnected,
       Effect.asyncReadSome (CHUNK + 1)] := by
  decide

/-- C7 (amended): for the UDP endpoint, when the socket open succeeds the
connect handler opens and binds the socket, resets the statistics counters
to zero, sets `connected`, emits `onConnected`, and starts the first read;
no `onEmpty` is emitted, and the statistics reset precedes
`onConnected`. -/
theorem C7_udp_connect_amended (c : UDPClient) :
    (c.connected = false → c.reciving = false →
      c.connectHandler =
        ({ c with
            datagrams_sent := 0
            datagrams_received := 0
            bytes_sent := 0
            bytes_received := 0
            connected := true
            reciving := true },
          [Effect.socketOpen] ++
            (if c.option_reuse_address then [Effect.setReuseAddress] else []) ++
            (if c.option_reuse_port then [Effect.setReusePort] else []) ++
            [Effect.socketBind c.option_multicast, Effect.resetStatistics,
             Effect.setConnectedFlag true, Effect.onConnected,
             Effect.asyncReadSome c.recive_buffer])) ∧
    Effect.onEmpty ∉ c.connectHandler.2 := by
  constructor
  · intro hc hr
    simp [UDPClient.connectHandler, UDPClient.TryReceive, hc, hr]
  · simp only [UDPClient.connectHandler, UDPClient.TryReceive]
    repeat' split
    all_goals simp

/-- Witness for C7 (amended) at the freshly constructed client. -/
theorem C7_udp_connect_amended_witness :
    UDPClient.init.connectHandler =
      ({ UDPClient.init with connected := true, reciving := true },
        [Effect.socketOpen, Effect.socketBind false, Effect.resetStatistics,
         Effect.setConnectedFlag true, Effect.onConnected,
         Effect.asyncReadSome (CHUNK + 1)]) := by
  have h := (C7_udp_connect_amended UDPClient.init).1 rfl rfl
  simpa using h

/-! ## Claim C8 — the `Reconnect` busy wait -/

/-- C8 counterexample: the claim calls the wait a bounded spin, but no
fuel bound suffices for every environment — with the concrete environment
`trace = fun i => true` (the disconnect is never observed) the loop in
`UDPClient::Reconnect` spins forever. -/
theorem C8_counterexample :
    ¬ ∃ N : Nat, ∀ trace : Nat → Bool, ∀ i : Nat,
      (spinWait trace N i).isSome = true := by
  rintro ⟨N, h⟩
  have hnone : ∀ M i : Nat, spinWait (fun _ => true) M i = none := by
    intro M
    induction M with
    | zero => intro i; simp [spinWait]
    | succ m ih => intro i; simp [spinWait, ih]
  have := h (fun _ => true) 0
  rw [hnone N 0] at this
  simp at this

/-- C8 (amended): `Reconnect` first calls `Disconnect` and returns `false`
when that fails; otherwise it spins, yielding and issuing no new I/O,
until `connected = false` is observed, and then calls `Connect`.  The spin
exits at the first observation of `connected = false` — every earlier
check observed `connected = true` — but it is not bounded: when
`connected = false` never becomes observable the loop never exits. -/
theorem C8_reconnect_amended (c : UDPClient) (trace : Nat → Bool)
    (fuel j : Nat) :
    (c.connected = false → c.Reconnect trace fuel = some ([], false)) ∧
    (c.connected = true → spinWait trace fuel 0 = some j →
      c.Reconnect trace fuel =
        some (Effect.dispatchDisconnect false ::
            (List.replicate j Effect.yieldThread ++ [Effect.postConnectHandler]),
          true)) ∧
    (spinWait trace fuel 0 = some j →
      trace j = false ∧ ∀ i, i < j → trace i = true) ∧
    (c.connected = true → (∀ i, trace i = true) →
      c.Reconnect trace fuel = none) := by
  have hspin : ∀ (f i j : Nat), spinWait trace f i = some j →
      trace j = false ∧ ∀ m, i ≤ m → m < j → trace m = true := by
    intro f
    induction f with
    | zero =>
      intro i j h
      rw [spinWait] at h
      by_cases ht : trace i
      · simp [ht] at h
      · simp [ht] at h
        subst h
        exact ⟨by simpa using ht, fun m h1 h2 => absurd h1 (by omega)⟩
    | succ n ih =>
      intro i j h
      rw [spinWait] at h
      by_cases ht : trace i
      · simp [ht] at h
        obtain ⟨hj, hmem⟩ := ih (i + 1) j h
        refine ⟨hj, fun m h1 h2 => ?_⟩
        rcases Nat.eq_or_lt_of_le h1 with rfl | h1
        · exact ht
        · exact hmem m h1 h2
      · simp [ht] at h
        subst h
        exact ⟨by simpa using ht, fun m h1 h2 => absurd h1 (by omega)⟩
  have hnone : (∀ i, trace i = true) → ∀ (f i : Nat), spinWait trace f i = none := by
    intro hall f
    induction f with
    | zero => intro i; simp [spinWait, hall i]
    | succ n ih => intro i; simp [spinWait, hall i, ih]
  refine ⟨?_, ?_, fun h => hspin fuel 0 j h |>.imp_right
    (fun hm i hi => hm i (Nat.zero_le i) hi), ?_⟩
  · intro hc
    simp [UDPClient.Reconnect, UDPClient.Disconnect, hc]
  · intro hc hs
    simp [UDPClient.Reconnect, UDPClient.Disconnect, UDPClient.Connect, hc, hs]
  · intro hc hall
    simp [UDPClient.Reconnect, UDPClient.Disconnect, hc, hnone hall fuel 0]

/-- Witness for C8 (amended): a connected client whose disconnect becomes
observable at the third check reconnects with two yields; the spin exits
at the first false observation. -/
theorem C8_reconnect_amended_witness :
    ({ UDPClient.init with connected := true } : UDPClient).Reconnect
        (fun i => decide (i < 2)) 5 =
      some (Effect.dispatchDisconnect false ::
          (List.replicate 2 Effect.yieldThread ++ [Effect.postConnectHandler]),
        true) ∧
    (fun i => decide (i < 2)) 2 = false := by
  have h := C8_reconnect_amended { UDPClient.init with connected := true }
    (fun i => decide (i < 2)) 5 2
  exact ⟨h.2.1 rfl (by decide), (h.2.2.1 (by decide)).1⟩

/-! ## Claim C3 — the adaptive receive buffer

Helper lemmas: how each session operation treats the receive-buffer size,
and a one-step relation closing over every operation of each session. -/

lemma recvbuf_Connect (s : SSLSession) (nd : Bool) :
    (s.Connect nd).1.recive_buffer = s.recive_buffer := by
  simp only [SSLSession.Connect]
  repeat' split
  all_goals simp

lemma recvbuf_handshakeHandler (s : SSLSession) (ec : Option ErrorCode) :
    (s.handshakeHandler ec).1.recive_buffer = s.recive_buffer := by
  simp only [SSLSession.handshakeHandler, SSLSession.TryReceive, SSLSession.Disconnect]
  repeat' split
  all_goals simp

lemma recvbuf_Send (s : SSLSession) (b : Option (List Nat)) :
    (s.Send b).1.recive_buffer = s.recive_buffer := by
  simp only [SSLSession.Send]
  repeat' split
  all_goals simp

lemma recvbuf_TrySend (s : SSLSession) :
    s.TrySend.1.recive_buffer = s.recive_buffer := by
  simp only [SSLSession.TrySend]
  repeat' split
  all_goals simp

lemma recvbuf_TryReceive (s : SSLSession) :
    s.TryReceive.1.recive_buffer = s.recive_buffer := by
  simp only [SSLSession.TryReceive]
  repeat' split
  all_goals simp

lemma recvbuf_writeCompletion (s : SSLSession) (ec : Option ErrorCode) (k : Nat) :
    (s.writeCompletion ec k).1.recive_buffer = s.recive_buffer := by
  simp only [SSLSession.writeCompletion, SSLSession.TrySend, SSLSession.Disconnect]
  repeat' split
  all_goals simp

lemma recvbuf_Disconnect (s : SSLSession) (d : Bool) :
    (s.Disconnect d).1.recive_buffer = s.recive_buffer := by
  simp only [SSLSession.Disconnect]
  repeat' split
  all_goals simp

lemma recvbuf_disconnectHandler (s : SSLSession) :
    s.disconnectHandler.1.recive_buffer = s.recive_buffer := by
  simp only [SSLSession.disconnectHandler]
  repeat' split
  all_goals simp

lemma recvbuf_shutdownCompletion (s : SSLSession) :
    s.shutdownCompletion.1.recive_buffer = s.recive_buffer := by
  simp only [SSLSession.shutdownCompletion]
  repeat' split
  all_goals simp

lemma recvbuf_receiveCompletion (s : SSLSession) (ec : Option ErrorCode) (k : Nat) :
    (s.receiveCompletion ec k).1.recive_buffer =
      if s.handshaked = true ∧ 0 < k ∧ s.recive_buffer = k then 2 * k
      else s.recive_buffer := by
  simp only [SSLSession.receiveCompletion, SSLSession.TryReceive, SSLSession.Disconnect]
  repeat' split
  all_goals simp_all
  all_goals omega

lemma udp_recvbuf_Connect (c : UDPClient) :
    (c.Connect).1.recive_buffer = c.recive_buffer := by
  simp only [UDPClient.Connect]
  repeat' split
  all_goals simp

lemma udp_recvbuf_connectHandler (c : UDPClient) :
    c.connectHandler.1.recive_buffer = c.recive_buffer := by
  simp only [UDPClient.connectHandler, UDPClient.TryReceive]
  repeat' split
  all_goals simp

lemma udp_recvbuf_Send (c : UDPClient) (b : Option (List Nat)) (sent : Nat)
    (ec : Option ErrorCode) :
    (c.Send b sent ec).1.recive_buffer = c.recive_buffer := by
  simp only [UDPClient.Send, UDPClient.Disconnect, UDPClient.SendError]
  repeat' split
  all_goals simp

lemma udp_recvbuf_TryReceive (c : UDPClient) :
    c.TryReceive.1.recive_buffer = c.recive_buffer := by
  simp only [UDPClient.TryReceive]
  repeat' split
  all_goals simp

lemma udp_recvbuf_Disconnect (c : UDPClient) (d : Bool) :
    (c.Disconnect d).1.recive_buffer = c.recive_buffer := by
  simp only [UDPClient.Disconnect]
  repeat' split
  all_goals simp

lemma udp_recvbuf_disconnectHandler (c : UDPClient) :
    c.disconnectHandler.1.recive_buffer = c.recive_buffer := by
  simp only [UDPClient.disconnectHandler]
  repeat' split
  all_goals simp

lemma udp_recvbuf_receiveCompletion (c : UDPClient) (ec : Option ErrorCode)
    (k : Nat) :
    (c.receiveCompletion ec k).1.recive_buffer =
      if c.connected = true ∧ 0 < k ∧ c.recive_buffer = k then 2 * k
      else c.recive_buffer := by
  simp only [UDPClient.receiveCompletion, UDPClient.TryReceive, UDPClient.Disconnect]
  repeat' split
  all_goals simp_all
  all_goals omega

/-- One serializer-driven step of the TLS session: one of its operations
or completion handlers runs, with arbitrary arguments. -/
inductive SSLStep : SSLSession → SSLSession → Prop where
  | connect (s : SSLSession) (nd : Bool) : SSLStep s (s.Connect nd).1
  | handshakeDone (s : SSLSession) (ec : Option ErrorCode) :
      SSLStep s (s.handshakeHandler ec).1
  | send (s : SSLSession) (b : Option (List Nat)) : SSLStep s (s.Send b).1
  | trySend (s : SSLSession) : SSLStep s s.TrySend.1
  | tryReceive (s : SSLSession) : SSLStep s s.TryReceive.1
  | receiveDone (s : SSLSession) (ec : Option ErrorCode) (k : Nat) :
      SSLStep s (s.receiveCompletion ec k).1
  | writeDone (s : SSLSession) (ec : Option ErrorCode) (k : Nat) :
      SSLStep s (s.writeCompletion ec k).1
  | disconnect (s : SSLSession) (d : Bool) : SSLStep s (s.Disconnect d).1
  | disconnectRun (s : SSLSession) : SSLStep s s.disconnectHandler.1
  | shutdownDone (s : SSLSession) : SSLStep s s.shutdownCompletion.1

/-- One serializer-driven step of the UDP endpoint. -/
inductive UDPStep : UDPClient → UDPClient → Prop where
  | connect (c : UDPClient) : UDPStep c c.Connect.1
  | connectRun (c : UDPClient) : UDPStep c c.connectHandler.1
  | send (c : UDPClient) (b : Option (List Nat)) (sent : Nat)
      (ec : Option ErrorCode) : UDPStep c (c.Send b sent ec).1
  | tryReceive (c : UDPClient) : UDPStep c c.TryReceive.1
  | receiveDone (c : UDPClient) (ec : Option ErrorCode) (k : Nat) :
      UDPStep c (c.receiveCompletion ec k).1
  | disconnect (c : UDPClient) (d : Bool) : UDPStep c (c.Disconnect d).1
  | disconnectRun (c : UDPClient) : UDPStep c c.disconnectHandler.1

lemma sslStep_recvbuf {s s2 : SSLSession} (h : SSLStep s s2) :
    s2.recive_buffer = s.recive_buffer ∨
      s2.recive_buffer = 2 * s.recive_buffer := by
  cases h with
  | connect nd => exact Or.inl (recvbuf_Connect s nd)
  | handshakeDone ec => exact Or.inl (recvbuf_handshakeHandler s ec)
  | send b => exact Or.inl (recvbuf_Send s b)
  | trySend => exact Or.inl (recvbuf_TrySend s)
  | tryReceive => exact Or.inl (recvbuf_TryReceive s)
  | receiveDone ec k =>
    rw [recvbuf_receiveCompletion]
    split_ifs with h
    · exact Or.inr (by rw [h.2.2])
    · exact Or.inl rfl
  | writeDone ec k => exact Or.inl (recvbuf_writeCompletion s ec k)
  | disconnect d => exact Or.inl (recvbuf_Disconnect s d)
  | disconnectRun => exact Or.inl (recvbuf_disconnectHandler s)
  | shutdownDone => exact Or.inl (recvbuf_shutdownCompletion s)

lemma udpStep_recvbuf {c c2 : UDPClient} (h : UDPStep c c2) :
    c2.recive_buffer = c.recive_buffer ∨
      c2.recive_buffer = 2 * c.recive_buffer := by
  cases h with
  | connect => exact Or.inl (udp_recvbuf_Connect c)
  | connectRun => exact Or.inl (udp_recvbuf_connectHandler c)
  | send b sent ec => exact Or.inl (udp_recvbuf_Send c b sent ec)
  | tryReceive => exact Or.inl (udp_recvbuf_TryReceive c)
  | receiveDone ec k =>
    rw [udp_recvbuf_receiveCompletion]
    split_ifs with h
    · exact Or.inr (by rw [h.2.2])
    · exact Or.inl rfl
  | disconnect d => exact Or.inl (udp_recvbuf_Disconnect c d)
  | disconnectRun => exact Or.inl (udp_recvbuf_disconnectHandler c)

/-- C3: both session kinds start with a receive buffer of `CHUNK + 1`
bytes; no operation of either session ever shrinks it, and each step
leaves it unchanged or exactly doubles it; a read completion grows it
exactly when the read filled it (`k` equals the buffer size, `k > 0`, on a
live session), and then resizes it to exactly twice the read size, which
is the size the very next read is issued with; every operation other than
a read completion leaves the size unchanged. -/
theorem C3_recv_buffer_adaptive (s s2 : SSLSession) (c c2 : UDPClient)
    (ec : Option ErrorCode) (k : Nat) :
    SSLSession.init.recive_buffer = CHUNK + 1 ∧
    UDPClient.init.recive_buffer = CHUNK + 1 ∧
    (SSLStep s s2 → s.recive_buffer ≤ s2.recive_buffer) ∧
    (UDPStep c c2 → c.recive_buffer ≤ c2.recive_buffer) ∧
    (SSLStep s s2 → s2.recive_buffer = s.recive_buffer ∨
      s2.recive_buffer = 2 * s.recive_buffer) ∧
    (UDPStep c c2 → c2.recive_buffer = c.recive_buffer ∨
      c2.recive_buffer = 2 * c.recive_buffer) ∧
    ((s.receiveCompletion ec k).1.recive_buffer =
      if s.handshaked = true ∧ 0 < k ∧ s.recive_buffer = k then 2 * k
      else s.recive_buffer) ∧
    ((c.receiveCompletion ec k).1.recive_buffer =
      if c.connected = true ∧ 0 < k ∧ c.recive_buffer = k then 2 * k
      else c.recive_buffer) ∧
    (s.handshaked = true → s.recive_buffer = k → 0 < k →
      (s.receiveCompletion none k).2 =
        [Effect.onReceived k, Effect.asyncReadSome (2 * k)]) ∧
    (c.connected = true → c.recive_buffer = k → 0 < k →
      (c.receiveCompletion none k).2 =
        [Effect.onReceivedFrom k, Effect.asyncReadSome (2 * k)]) ∧
    (∀ nd, (s.Connect nd).1.recive_buffer = s.recive_buffer) ∧
    ((s.handshakeHandler ec).1.recive_buffer = s.recive_buffer) ∧
    (∀ b, (s.Send b).1.recive_buffer = s.recive_buffer) ∧
    (s.TrySend.1.recive_buffer = s.recive_buffer) ∧
    (s.TryReceive.1.recive_buffer = s.recive_buffer) ∧
    (∀ k2, (s.writeCompletion ec k2).1.recive_buffer = s.recive_buffer) ∧
    (∀ d, (s.Disconnect d).1.recive_buffer = s.recive_buffer) ∧
    (s.disconnectHandler.1.recive_buffer = s.recive_buffer) ∧
    (s.shutdownCompletion.1.recive_buffer = s.recive_buffer) ∧
    (c.connectHandler.1.recive_buffer = c.recive_buffer) ∧
    (∀ b sent ec2, (c.Send b sent ec2).1.recive_buffer = c.recive_buffer) ∧
    (c.TryReceive.1.recive_buffer = c.recive_buffer) ∧
    (c.disconnectHandler.1.recive_buffer = c.recive_buffer) := by
  refine ⟨rfl, rfl, ?_, ?_, sslStep_recvbuf, udpStep_recvbuf,
    recvbuf_receiveCompletion s ec k, udp_recvbuf_receiveCompletion c ec k,
    ?_, ?_, recvbuf_Connect s, recvbuf_handshakeHandler s ec, recvbuf_Send s,
    recvbuf_TrySend s, recvbuf_TryReceive s, recvbuf_writeCompletion s ec,
    recvbuf_Disconnect s, recvbuf_disconnectHandler s,
    recvbuf_shutdownCompletion s, udp_recvbuf_connectHandler c,
    udp_recvbuf_Send c, udp_recvbuf_TryReceive c,
    udp_recvbuf_disconnectHandler c⟩
  · intro h
    rcases sslStep_recvbuf h with h2 | h2 <;> omega
  · intro h
    rcases udpStep_recvbuf h with h2 | h2 <;> omega
  · intro h1 h2 h3
    simp [SSLSession.receiveCompletion, SSLSession.TryReceive, h1, h2, h3]
  · intro h1 h2 h3
    simp [UDPClient.receiveCompletion, UDPClient.TryReceive, h1, h2, h3]

/-- Witness for C3: a handshaked session whose initial `CHUNK + 1`-byte
buffer is exactly filled by a read doubles it to `2 * (CHUNK + 1)` and
issues the next read at the doubled size. -/
theorem C3_recv_buffer_adaptive_witness :
    (SSLSession.receiveCompletion
        { SSLSession.init with connected := true, handshaked := true }
        none 8193).1.recive_buffer = 16386 ∧
    ({ SSLSession.init with connected := true, handshaked := true } :
        SSLSession).recive_buffer ≤
      (SSLSession.receiveCompletion
        { SSLSession.init with connected := true, handshaked := true }
        none 8193).1.recive_buffer ∧
    (SSLSession.receiveCompletion
        { SSLSession.init with connected := true, handshaked := true }
        none 8193).2 =
      [Effect.onReceived 8193, Effect.asyncReadSome 16386] := by
  have h := C3_recv_buffer_adaptive
    { SSLSession.init with connected := true, handshaked := true }
    (SSLSession.receiveCompletion
      { SSLSession.init with connected := true, handshaked := true } none 8193).1
    UDPClient.init UDPClient.init none 8193
  refine ⟨?_, ?_, ?_⟩
  · rw [h.2.2.2.2.2.2.1]
    decide
  · exact h.2.2.1 (SSLStep.receiveDone _ none 8193)
  · have h9 := h.2.2.2.2.2.2.2.2.1 rfl (by decide) (by decide)
    simpa using h9

/-! ## Claim C10 — zero-byte completions are silent -/

set_option maxHeartbeats 1600000 in
/-- C10: every read or write completion delivering zero bytes emits no
data callback — no `onReceived`, no `onSent` — and changes no statistics
counter, at the TLS session's read and write completion sites and at the
UDP endpoint's read completion site; the data callbacks fire only for
completions with `k > 0`. -/
theorem C10_zero_byte_completions (s : SSLSession) (c : UDPClient)
    (ec : Option ErrorCode) (k : Nat) :
    (∀ n, Effect.onReceived n ∉ (s.receiveCompletion ec 0).2) ∧
    ((s.receiveCompletion ec 0).1.bytes_received = s.bytes_received) ∧
    ((s.receiveCompletion ec 0).1.server_bytes_received = s.server_bytes_received) ∧
    ((s.receiveCompletion ec 0).1.bytes_sent = s.bytes_sent) ∧
    ((s.receiveCompletion ec 0).1.server_bytes_sent = s.server_bytes_sent) ∧
    (∀ a b, Effect.onSent a b ∉ (s.writeCompletion ec 0).2) ∧
    ((s.writeCompletion ec 0).1.bytes_sent = s.bytes_sent) ∧
    ((s.writeCompletion ec 0).1.server_bytes_sent = s.server_bytes_sent) ∧
    ((s.writeCompletion ec 0).1.bytes_received = s.bytes_received) ∧
    ((s.writeCompletion ec 0).1.server_bytes_received = s.server_bytes_received) ∧
    (∀ n, Effect.onReceivedFrom n ∉ (c.receiveCompletion ec 0).2) ∧
    ((c.receiveCompletion ec 0).1.bytes_received = c.bytes_received) ∧
    ((c.receiveCompletion ec 0).1.datagrams_received = c.datagrams_received) ∧
    (∀ n, Effect.onReceived n ∈ (s.receiveCompletion ec k).2 → 0 < k) ∧
    (∀ a b, Effect.onSent a b ∈ (s.writeCompletion ec k).2 → 0 < k) ∧
    (∀ n, Effect.onReceivedFrom n ∈ (c.receiveCompletion ec k).2 → 0 < k) := by
  have hrecv : ∀ n, Effect.onReceived n ∉ (s.receiveCompletion ec 0).2 := by
    intro n
    simp only [SSLSession.receiveCompletion, SSLSession.TryReceive,
      SSLSession.Disconnect, SSLSession.SendError]
    repeat' split
    all_goals try simp
    all_goals exfalso
    all_goals omega
  have hsent : ∀ a b, Effect.onSent a b ∉ (s.writeCompletion ec 0).2 := by
    intro a b
    simp only [SSLSession.writeCompletion, SSLSession.TrySend,
      SSLSession.Disconnect, SSLSession.SendError]
    repeat' split
    all_goals try simp
    all_goals exfalso
    all_goals omega
  have hfrom : ∀ n, Effect.onReceivedFrom n ∉ (c.receiveCompletion ec 0).2 := by
    intro n
    simp only [UDPClient.receiveCompletion, UDPClient.TryReceive,
      UDPClient.Disconnect, UDPClient.SendError]
    repeat' split
    all_goals try simp
    all_goals exfalso
    all_goals omega
  refine ⟨hrecv, ?_, ?_, ?_, ?_, hsent, ?_, ?_, ?_, ?_, hfrom, ?_, ?_,
    ?_, ?_, ?_⟩
  · simp only [SSLSession.receiveCompletion, SSLSession.TryReceive, SSLSession.Disconnect]
    repeat' split
    all_goals try simp
    all_goals exfalso
    all_goals omega
  · simp only [SSLSession.receiveCompletion, SSLSession.TryReceive, SSLSession.Disconnect]
    repeat' split
    all_goals try simp
    all_goals exfalso
    all_goals omega
  · simp only [SSLSession.receiveCompletion, SSLSession.TryReceive, SSLSession.Disconnect]
    repeat' split
    all_goals try simp
    all_goals exfalso
    all_goals omega
  · simp only [SSLSession.receiveCompletion, SSLSession.TryReceive, SSLSession.Disconnect]
    repeat' split
    all_goals try simp
    all_goals exfalso
    all_goals omega
  · simp only [SSLSession.writeCompletion, SSLSession.TrySend, SSLSession.Disconnect]
    repeat' split
    all_goals try simp
    all_goals exfalso
    all_goals omega
  · simp only [SSLSession.writeCompletion, SSLSession.TrySend, SSLSession.Disconnect]
    repeat' split
    all_goals try simp
    all_goals exfalso
    all_goals omega
  · simp only [SSLSession.writeCompletion, SSLSession.TrySend, SSLSession.Disconnect]
    repeat' split
    all_goals try simp
    all_goals exfalso
    all_goals omega
  · simp only [SSLSession.writeCompletion, SSLSession.TrySend, SSLSession.Disconnect]
    repeat' split
    all_goals try simp
    all_goals exfalso
    all_goals omega
  · simp only [UDPClient.receiveCompletion, UDPClient.TryReceive, UDPClient.Disconnect]
    repeat' split
    all_goals try simp
    all_goals exfalso
    all_goals omega
  · simp only [UDPClient.receiveCompletion, UDPClient.TryReceive, UDPClient.Disconnect]
    repeat' split
    all_goals try simp
    all_goals exfalso
    all_goals omega
  · intro n hmem
    rcases Nat.eq_zero_or_pos k with rfl | hk
    · exact absurd hmem (hrecv n)
    · exact hk
  · intro a b hmem
    rcases Nat.eq_zero_or_pos k with rfl | hk
    · exact absurd hmem (hsent a b)
    · exact hk
  · intro n hmem
    rcases Nat.eq_zero_or_pos k with rfl | hk
    · exact absurd hmem (hfrom n)
    · exact hk

/-- Witness for C10: a five-byte read on a handshaked session does carry
`onReceived`, so its positivity clause applies; a zero-byte completion on
the same session emits no `onReceived`. -/
theorem C10_zero_byte_completions_witness :
    (0 < 5) ∧
    (∀ n, Effect.onReceived n ∉
      (SSLSession.receiveCompletion
        { SSLSession.init with connected := true, handshaked := true }
        none 0).2) := by
  have h := C10_zero_byte_completions
    { SSLSession.init with connected := true, handshaked := true }
    UDPClient.init none 5
  exact ⟨h.2.2.2.2.2.2.2.2.2.2.2.2.2.1 5 (by decide), h.1⟩

/-! ## Claim C2 — the `TrySend` algorithm -/

/-- The claim's description of the `TrySend` entry, transcribed from the
spec's words for comparison with the source's `SSLSession.TrySend`: if
`sending` is true return; if the flush buffer is empty swap it with the
main buffer under the send lock and reset the offset; if it is still
empty emit `onEmpty` and return; otherwise set `sending` and issue the
asynchronous write.  It has no early return for a session that is not
handshaked. -/
def SSLSession.TrySendClaim (s : SSLSession) : SSLSession × List Effect :=
  if s.sending then (s, [])
  else
    let s1 :=
      if s.send_buffer_flush.isEmpty then
        { s with
            send_buffer_flush := s.send_buffer_main
            send_buffer_main := []
            send_buffer_flush_offset := 0 }
      else s
    if s1.send_buffer_flush.isEmpty then (s1, [Effect.onEmpty])
    else
      ({ s1 with sending := true },
        [Effect.asyncWrite (s1.send_buffer_flush.drop s1.send_buffer_flush_offset)])

/-- C2 counterexample: the source's `TrySend` also returns immediately
when the session is not handshaked — a guard the claim's step list omits.
On the concrete state with `handshaked = false` and one pending byte in
the main buffer (reachable when a concurrent `Send` appends while the
shutdown completion runs), the claim's steps swap the buffers and issue a
write, while the source does nothing. -/
theorem C2_counterexample :
    SSLSession.TrySend { SSLSession.init with send_buffer_main := [1] } ≠
      SSLSession.TrySendClaim { SSLSession.init with send_buffer_main := [1] } ∧
    SSLSession.TrySend { SSLSession.init with send_buffer_main := [1] } =
      ({ SSLSession.init with send_buffer_main := [1] }, []) := by
  decide

/-- C2 (amended): `TrySend` returns immediately when `sending` is true or
the session is not handshaked; otherwise, when the flush buffer is empty
it swaps it with the main buffer and resets the offset; when the flush
buffer is still empty it emits `onEmpty`; otherwise it sets `sending` and
issues an asynchronous write of the flush buffer from the offset.  The
write completion first clears `sending` and stops when the session is no
longer handshaked; otherwise, only when `k > 0`, it adds `k` to the
bytes-sent statistics, advances the offset by `k`, clears the flush
buffer and offset when the offset reached the flush length, and emits
`onSent(k, remaining)`; then with no error it runs `TrySend` again, and
on an error it reports it through the classifier and begins shutdown. -/
theorem C2_try_send_amended (s : SSLSession) (e : ErrorCode) (k : Nat) :
    (s.sending = true → s.TrySend = (s, [])) ∧
    (s.sending = false → s.handshaked = false → s.TrySend = (s, [])) ∧
    (s.sending = false → s.handshaked = true → s.send_buffer_flush = [] →
      s.send_buffer_main = [] →
      s.TrySend =
        ({ s with
            send_buffer_flush := []
            send_buffer_main := []
            send_buffer_flush_offset := 0 }, [Effect.onEmpty])) ∧
    (s.sending = false → s.handshaked = true → s.send_buffer_flush = [] →
      s.send_buffer_main ≠ [] →
      s.TrySend =
        ({ s with
            send_buffer_flush := s.send_buffer_main
            send_buffer_main := []
            send_buffer_flush_offset := 0
            sending := true },
          [Effect.asyncWrite s.send_buffer_main])) ∧
    (s.sending = false → s.handshaked = true → s.send_buffer_flush ≠ [] →
      s.TrySend =
        ({ s with sending := true },
          [Effect.asyncWrite
            (s.send_buffer_flush.drop s.send_buffer_flush_offset)])) ∧
    (s.handshaked = false →
      ∀ ec, s.writeCompletion ec k = ({ s with sending := false }, [])) ∧
    (s.handshaked = true →
      s.writeCompletion none 0 = ({ s with sending := false } : SSLSession).TrySend) ∧
    (s.handshaked = true → s.connected = true →
      s.writeCompletion (some e) 0 =
        ({ s with sending := false },
          SSLSession.SendError e ++ [Effect.dispatchDisconnect true])) ∧
    (s.handshaked = true → 0 < k →
      s.send_buffer_flush_offset + k ≠ s.send_buffer_flush.length →
      s.writeCompletion none k =
        (({ s with
            sending := false
            bytes_sent := s.bytes_sent + k
            server_bytes_sent := s.server_bytes_sent + k
            send_buffer_flush_offset := s.send_buffer_flush_offset + k } :
              SSLSession).TrySend.1,
          Effect.onSent k
              (s.send_buffer_flush.length - (s.send_buffer_flush_offset + k)) ::
            ({ s with
                sending := false
                bytes_sent := s.bytes_sent + k
                server_bytes_sent := s.server_bytes_sent + k
                send_buffer_flush_offset := s.send_buffer_flush_offset + k } :
                  SSLSession).TrySend.2)) ∧
    (s.handshaked = true → 0 < k →
      s.send_buffer_flush_offset + k = s.send_buffer_flush.length →
      s.writeCompletion none k =
        (({ s with
            sending := false
            bytes_sent := s.bytes_sent + k
            server_bytes_sent := s.server_bytes_sent + k
            send_buffer_flush := []
            send_buffer_flush_offset := 0 } : SSLSession).TrySend.1,
          Effect.onSent k 0 ::
            ({ s with
                sending := false
                bytes_sent := s.bytes_sent + k
                server_bytes_sent := s.server_bytes_sent + k
                send_buffer_flush := []
                send_buffer_flush_offset := 0 } : SSLSession).TrySend.2)) ∧
    (s.handshaked = true → s.connected = true → 0 < k →
      s.send_buffer_flush_offset + k ≠ s.send_buffer_flush.length →
      s.writeCompletion (some e) k =
        ({ s with
            sending := false
            bytes_sent := s.bytes_sent + k
            server_bytes_sent := s.server_bytes_sent + k
            send_buffer_flush_offset := s.send_buffer_flush_offset + k },
          Effect.onSent k
              (s.send_buffer_flush.length - (s.send_buffer_flush_offset + k)) ::
            (SSLSession.SendError e ++ [Effect.dispatchDisconnect true]))) := by
  refine ⟨?_, ?_, ?_, ?_, ?_, ?_, ?_, ?_, ?_, ?_, ?_⟩
  · intro h
    simp [SSLSession.TrySend, h]
  · intro h1 h2
    simp [SSLSession.TrySend, h1, h2]
  · intro h1 h2 h3 h4
    simp [SSLSession.TrySend, h1, h2, h3, h4]
  · intro h1 h2 h3 h4
    simp [SSLSession.TrySend, h1, h2, h3, h4, List.isEmpty_eq_true]
  · intro h1 h2 h3
    simp [SSLSession.TrySend, h1, h2, List.isEmpty_eq_true, h3]
  · intro h ec
    rcases ec with _ | e2 <;> simp [SSLSession.writeCompletion, h]
  · intro h
    simp [SSLSession.writeCompletion, h]
  · intro h1 h2
    simp [SSLSession.writeCompletion, SSLSession.Disconnect, h1, h2]
  · intro h1 h2 h3
    simp [SSLSession.writeCompletion, h1, h2, h3]
  · intro h1 h2 h3
    simp [SSLSession.writeCompletion, h1, h2, h3]
  · intro h1 h2 h3 h4
    simp [SSLSession.writeCompletion, SSLSession.Disconnect, h1, h2, h3, h4]

/-- Witness for C2 (amended): a handshaked session with one pending byte
swaps buffers and issues the write; the completion of that write with one
byte and no error clears the flush buffer, emits `onSent(1, 0)`, and the
rerun of `TrySend` finds both buffers empty and emits `onEmpty`. -/
theorem C2_try_send_amended_witness :
    SSLSession.TrySend
        { SSLSession.init with
            connected := true
            handshaked := true
            send_buffer_main := [9] } =
      ({ SSLSession.init with
          connected := true
          handshaked := true
          send_buffer_flush := [9]
          sending := true },
        [Effect.asyncWrite [9]]) ∧
    SSLSession.writeCompletion
        { SSLSession.init with
            connected := true
            handshaked := true
            send_buffer_flush := [9]
            sending := true } none 1 =
      ({ SSLSession.init with
          connected := true
          handshaked := true
          bytes_sent := 1
          server_bytes_sent := 1
          send_buffer_flush_offset := 0 },
        [Effect.onSent 1 0, Effect.onEmpty]) := by
  constructor
  · have h := (C2_try_send_amended
      { SSLSession.init with
          connected := true
          handshaked := true
          send_buffer_main := [9] } connection_reset 0).2.2.2.1
      rfl rfl rfl (by decide)
    simpa using h
  · have h := (C2_try_send_amended
      { SSLSession.init with
          connected := true
          handshaked := true
          send_buffer_flush := [9]
          sending := true } connection_reset 1).2.2.2.2.2.2.2.2.2.1
      rfl (by decide) (by decide)
    rw [h]
    decide

end CppServer
